import Mathlib

/-
Verification of the resilient fetch component of pg_client_server_api
(src/server.go): the retry loop, failure accounting and circuit-breaker
state machine of ApiCotacaoFetcher, plus the JSON decode/encode path of
the quote payload and the request handler.

Modelling conventions:
* Go `int` fields (retry, failureThreshold, failureCount) are Int;
  overflow is irrelevant at the magnitudes involved.
* Go `time.Time` / `time.Duration` are instants/durations in Int
  (nanoseconds); `time.Since(t)` at instant `now` is `now - t`.
* The upstream network is an oracle `Nat -> AttemptOutcome` giving, for
  each loop iteration i, either a transport error (client.Do returns a
  non-nil error and a nil response -- the normal transport-failure case)
  or a response with a status code and a JSON body.
* Whether `http.NewRequestWithContext` succeeds is a property of the
  configured URL alone, modelled by the `urlOk` flag of the config.
* A nil-pointer dereference panic is the `panicked` fetch outcome.
-/

namespace PgCotacao

/-- JSON values as seen by encoding/json. Numbers never carry a bid
(the Bid field is a Go string), so their representation is irrelevant;
a rational stands in for them. -/
inductive Json where
  | null
  | bool (b : Bool)
  | num (q : Rat)
  | str (s : String)
  | arr (elems : List Json)
  | obj (fields : List (String × Json))

/-- `type Cotacao struct { Bid string }` (src/server.go line 15). -/
structure Cotacao where
  Bid : String
deriving DecidableEq

/-- Decode the fields of a JSON object into a Cotacao struct, the way
encoding/json does: fields are processed in order, an unknown key is
ignored, `"bid": null` leaves the current value, a non-string non-null
`bid` value is a decode error. -/
def decodeCotacaoFields : List (String × Json) → Cotacao → Option Cotacao
  | [], c => some c
  | (k, v) :: rest, c =>
      if k = "bid" then
        match v with
        | Json.str s => decodeCotacaoFields rest ⟨s⟩
        | Json.null => decodeCotacaoFields rest c
        | _ => none
      else decodeCotacaoFields rest c

/-- Decode one JSON value into a Cotacao: JSON null leaves the zero
struct, a JSON object is decoded field by field, anything else is a
decode error. -/
def decodeCotacao : Json → Option Cotacao
  | Json.null => some ⟨""⟩
  | Json.obj fields => decodeCotacaoFields fields ⟨""⟩
  | _ => none

/-- Insert into a Go map modelled as an association list: overwrite the
existing binding of the key if present, append otherwise. -/
def mapInsert : List (String × Cotacao) → String → Cotacao → List (String × Cotacao)
  | [], k, c => [(k, c)]
  | (k', c') :: rest, k, c =>
      if k' = k then (k, c) :: rest else (k', c') :: mapInsert rest k c

/-- Decode the entries of a JSON object into `map[string]Cotacao`:
each value is decoded in order; the first value that fails to decode
aborts the whole decode; a repeated key overwrites (last wins). -/
def decodeCotacaoMapFields : List (String × Json) → List (String × Cotacao) → Option (List (String × Cotacao))
  | [], acc => some acc
  | (k, v) :: rest, acc =>
      match decodeCotacao v with
      | none => none
      | some c => decodeCotacaoMapFields rest (mapInsert acc k c)

/-- `json.NewDecoder(resp.Body).Decode(&result)` for
`var result map[string]Cotacao` (src/server.go lines 74-75): the body
must be a JSON object (decoded entry-wise) or JSON null (which leaves
the map nil); any other top-level value is a decode error. -/
def decodeCotacaoMap : Json → Option (List (String × Cotacao))
  | Json.null => some []
  | Json.obj fields => decodeCotacaoMapFields fields []
  | _ => none

/-- First-match lookup in the association-list map. `mapInsert` keeps
keys unique, so first match and last match agree. -/
def lookupC : List (String × Cotacao) → String → Option Cotacao
  | [], _ => none
  | (k, c) :: rest, key => if k = key then some c else lookupC rest key

/-- Go map indexing `result[key]`: the zero Cotacao when absent. -/
def mapGet (m : List (String × Cotacao)) (key : String) : Cotacao :=
  (lookupC m key).getD ⟨""⟩

/-- The mutable breaker state of ApiCotacaoFetcher
(src/server.go lines 27-30): failureCount, circuitOpen,
lastAttemptTime. -/
structure CircuitState where
  failureCount : Int
  circuitOpen : Bool
  lastAttemptTime : Int
deriving DecidableEq

/-- The immutable configuration of ApiCotacaoFetcher
(src/server.go lines 24-32). `urlOk` abstracts whether
`http.NewRequestWithContext` succeeds for the configured URL
(its error depends only on the fixed method and URL). -/
structure FetcherConfig where
  urlOk : Bool
  retry : Int
  failureThreshold : Int
  circuitResetTime : Int
  fallbackValue : String
deriving DecidableEq

/-- `NewApiCotacaoFetcher` (src/server.go lines 35-43): the breaker
state starts at the zero value of the struct fields. -/
def NewApiCotacaoFetcher (urlOk : Bool) (retry failureThreshold circuitResetTime : Int)
    (fallbackValue : String) : FetcherConfig × CircuitState :=
  (⟨urlOk, retry, failureThreshold, circuitResetTime, fallbackValue⟩, ⟨0, false, 0⟩)

/-- `incrementFailureCount` (src/server.go lines 91-99): increment
`failureCount`; once the new count reaches the threshold, set
`circuitOpen` (it is never cleared here). No timestamp is touched. -/
def incrementFailureCount (cfg : FetcherConfig) (s : CircuitState) : CircuitState :=
  let fc := s.failureCount + 1
  { s with
      failureCount := fc,
      circuitOpen := if cfg.failureThreshold ≤ fc then true else s.circuitOpen }

/-- `resetCircuit` (src/server.go lines 101-106). -/
def resetCircuit (s : CircuitState) : CircuitState :=
  { s with failureCount := 0, circuitOpen := false }

/-- One upstream attempt as produced by `client.Do`
(src/server.go line 66): a transport error (nil response, non-nil
error) or an HTTP response with a status code and a JSON body. -/
inductive AttemptOutcome where
  | transportError
  | response (status : Int) (body : Json)

/-- The body of an attempt outcome, forgetting the status code. -/
def ignoreStatus : AttemptOutcome → Option Json
  | AttemptOutcome.transportError => none
  | AttemptOutcome.response _ body => some body

/-- The error values Fetch can pair with its returned string. -/
inductive FetchErr where
  | build
  | transport
  | decode
deriving DecidableEq

/-- How a Fetch call ends: a normal Go return of `(value, err)`, or a
runtime panic (the nil-pointer dereference of `resp.StatusCode` in the
transport-error log line, src/server.go line 69). -/
inductive FetchOutcome where
  | returned (value : String) (err : Option FetchErr)
  | panicked
deriving DecidableEq

/-- Result of a Fetch call: its outcome, the number of `client.Do`
calls performed, and the breaker state afterwards. -/
structure FetchResult where
  outcome : FetchOutcome
  attempts : Nat
  state : CircuitState
deriving DecidableEq

/-- The retry loop of Fetch (src/server.go lines 59-88), by remaining
iterations. `i` is the Go loop index, `rem` the iterations left
(initially retry+1), `lastErr` the last remembered error. Per
iteration: a request-construction failure returns `("", err)` at once;
a transport error stores lastErr and then panics on
`resp.StatusCode` before `incrementFailureCount` runs; a decode error
records a failure and continues; a successful decode resets the
circuit and returns the looked-up bid. After the last iteration the
code stamps `lastAttemptTime = time.Now()` (= `endNow`) and returns
`(fallbackValue, lastErr)`. -/
def fetchLoop (cfg : FetcherConfig) (oracle : Nat → AttemptOutcome) (endNow : Int) :
    Nat → Nat → CircuitState → Option FetchErr → FetchResult
  | _, 0, s, lastErr =>
      { outcome := FetchOutcome.returned cfg.fallbackValue lastErr,
        attempts := 0,
        state := { s with lastAttemptTime := endNow } }
  | i, rem + 1, s, _lastErr =>
      if cfg.urlOk = true then
        match oracle i with
        | AttemptOutcome.transportError =>
            { outcome := FetchOutcome.panicked, attempts := 1, state := s }
        | AttemptOutcome.response _st body =>
            match decodeCotacaoMap body with
            | none =>
                let r := fetchLoop cfg oracle endNow (i + 1) rem
                  (incrementFailureCount cfg s) (some FetchErr.decode)
                { r with attempts := r.attempts + 1 }
            | some result =>
                { outcome := FetchOutcome.returned (mapGet result "USDBRL").Bid none,
                  attempts := 1,
                  state := resetCircuit s }
      else
        { outcome := FetchOutcome.returned "" (some FetchErr.build),
          attempts := 0, state := s }

/-- The breaker check at the top of Fetch (src/server.go lines 46-56),
after the bypass branch has been ruled out: if the circuit is open and
the cooldown has elapsed, close it and clear the failure count. -/
def halfOpenCheck (cfg : FetcherConfig) (now : Int) (s : CircuitState) : CircuitState :=
  if s.circuitOpen = true ∧ cfg.circuitResetTime ≤ now - s.lastAttemptTime then
    { s with circuitOpen := false, failureCount := 0 }
  else s

/-- `Fetch` (src/server.go lines 45-89). `now` is the instant of the
breaker check at entry; `endNow` the instant of the
`f.lastAttemptTime = time.Now()` stamp after an exhausted loop. -/
def Fetch (cfg : FetcherConfig) (oracle : Nat → AttemptOutcome) (now endNow : Int)
    (s : CircuitState) : FetchResult :=
  if s.circuitOpen = true ∧ now - s.lastAttemptTime < cfg.circuitResetTime then
    { outcome := FetchOutcome.returned cfg.fallbackValue none, attempts := 0, state := s }
  else
    fetchLoop cfg oracle endNow 0 (cfg.retry + 1).toNat (halfOpenCheck cfg now s) none

/-- The handler's reply (src/server.go lines 134-156). -/
inductive HandlerResponse where
  | ok (body : Json)
  | internalError (message : String)

/-- `cotacaoHandler` (src/server.go lines 134-156), abstracted over the
pair returned by Fetch and the error returned by Save: a fetch error
or a save error yields a 500, otherwise the body is the JSON encoding
of `map[string]string\x7b"Cotacao": cotacao\x7d`. -/
def cotacaoHandler (fetched : String × Option FetchErr) (saveErr : Option String) :
    HandlerResponse :=
  match fetched.2 with
  | some _ => HandlerResponse.internalError "Failed to fetch cotacao"
  | none =>
      match saveErr with
      | some _ => HandlerResponse.internalError "Failed to save cotacao"
      | none => HandlerResponse.ok (Json.obj [("Cotacao", Json.str fetched.1)])

/-- The operations that mutate the breaker state anywhere in
src/server.go: `incrementFailureCount` (line 91), `resetCircuit`
(line 101), the cooldown reset inside Fetch (lines 53-54), and the
`lastAttemptTime` stamp after an exhausted loop (line 86). -/
inductive BreakerOp where
  | incFail
  | reset
  | cooldownReset
  | stamp (t : Int)

/-- Apply one breaker mutation. -/
def applyOp (cfg : FetcherConfig) (s : CircuitState) : BreakerOp → CircuitState
  | BreakerOp.incFail => incrementFailureCount cfg s
  | BreakerOp.reset => resetCircuit s
  | BreakerOp.cooldownReset => { s with circuitOpen := false, failureCount := 0 }
  | BreakerOp.stamp t => { s with lastAttemptTime := t }

/-- Run a sequence of breaker mutations. -/
def runOps (cfg : FetcherConfig) (s : CircuitState) (ops : List BreakerOp) : CircuitState :=
  ops.foldl (applyOp cfg) s

/-- The zero-valued breaker state a fresh fetcher starts from. -/
def initialState : CircuitState := ⟨0, false, 0⟩

/-- An upstream behaviour in which every attempt yields a response
whose body fails to decode (every attempt is a recorded fetch
failure, and no attempt panics). -/
def AllDecodeFail (oracle : Nat → AttemptOutcome) : Prop :=
  ∀ i, ∃ st body, oracle i = AttemptOutcome.response st body ∧ decodeCotacaoMap body = none

/-- `incrementFailureCount` iterated n times. -/
def incIter (cfg : FetcherConfig) : Nat → CircuitState → CircuitState
  | 0, s => s
  | n + 1, s => incIter cfg n (incrementFailureCount cfg s)

lemma incrementFailureCount_failureCount (cfg : FetcherConfig) (s : CircuitState) :
    (incrementFailureCount cfg s).failureCount = s.failureCount + 1 := rfl

lemma incrementFailureCount_lastAttemptTime (cfg : FetcherConfig) (s : CircuitState) :
    (incrementFailureCount cfg s).lastAttemptTime = s.lastAttemptTime := rfl

lemma incIter_failureCount (cfg : FetcherConfig) :
    ∀ (n : Nat) (s : CircuitState),
      (incIter cfg n s).failureCount = s.failureCount + (n : Int) := by
  intro n
  induction n with
  | zero => intro s; simp [incIter]
  | succ m ih =>
      intro s
      have h := ih (incrementFailureCount cfg s)
      simp only [incIter, h, incrementFailureCount_failureCount]
      push_cast
      ring

lemma incIter_lastAttemptTime (cfg : FetcherConfig) :
    ∀ (n : Nat) (s : CircuitState),
      (incIter cfg n s).lastAttemptTime = s.lastAttemptTime := by
  intro n
  induction n with
  | zero => intro s; simp [incIter]
  | succ m ih =>
      intro s
      simp only [incIter, ih (incrementFailureCount cfg s),
        incrementFailureCount_lastAttemptTime]

lemma incIter_circuitOpen_of_threshold (cfg : FetcherConfig) :
    ∀ (n : Nat) (s : CircuitState), 1 ≤ n →
      cfg.failureThreshold ≤ s.failureCount + (n : Int) →
      (incIter cfg n s).circuitOpen = true := by
  intro n
  induction n with
  | zero => intro s h; omega
  | succ m ih =>
      intro s _ hth
      cases m with
      | zero =>
          simp only [incIter, incrementFailureCount]
          rw [if_pos]
          push_cast at hth
          omega
      | succ k =>
          have h1 : cfg.failureThreshold ≤
              (incrementFailureCount cfg s).failureCount + ((k + 1 : Nat) : Int) := by
            rw [incrementFailureCount_failureCount]
            push_cast at hth ⊢
            omega
          exact ih (incrementFailureCount cfg s) (by omega) h1

lemma fetchLoop_attempts_le (cfg : FetcherConfig) (oracle : Nat → AttemptOutcome)
    (endNow : Int) :
    ∀ (rem i : Nat) (s : CircuitState) (e : Option FetchErr),
      (fetchLoop cfg oracle endNow i rem s e).attempts ≤ rem := by
  intro rem
  induction rem with
  | zero => intro i s e; simp [fetchLoop]
  | succ n ih =>
      intro i s e
      by_cases hu : cfg.urlOk = true
      · cases ho : oracle i with
        | transportError =>
            simp [fetchLoop, hu, ho]
        | response st body =>
            cases hd : decodeCotacaoMap body with
            | none =>
                have h1 := ih (i + 1) (incrementFailureCount cfg s) (some FetchErr.decode)
                simp only [fetchLoop, hu, if_true, ho, hd]
                simpa using h1
            | some m =>
                simp [fetchLoop, hu, ho, hd]
      · simp [fetchLoop, hu]

lemma fetchLoop_attempts_pos (cfg : FetcherConfig) (oracle : Nat → AttemptOutcome)
    (endNow : Int) (i : Nat) (rem : Nat) (s : CircuitState) (e : Option FetchErr)
    (hu : cfg.urlOk = true) (hrem : 1 ≤ rem) :
    1 ≤ (fetchLoop cfg oracle endNow i rem s e).attempts := by
  cases rem with
  | zero => omega
  | succ n =>
      cases ho : oracle i with
      | transportError =>
          simp [fetchLoop, hu, ho]
      | response st body =>
          cases hd : decodeCotacaoMap body with
          | none => simp [fetchLoop, hu, ho, hd]
          | some m => simp [fetchLoop, hu, ho, hd]

lemma fetchLoop_early_exit (cfg : FetcherConfig) (oracle : Nat → AttemptOutcome)
    (endNow : Int) :
    ∀ (rem i : Nat) (s : CircuitState) (e : Option FetchErr),
      (fetchLoop cfg oracle endNow i rem s e).attempts < rem →
        (∃ v, (fetchLoop cfg oracle endNow i rem s e).outcome =
            FetchOutcome.returned v none) ∨
        (fetchLoop cfg oracle endNow i rem s e).outcome =
            FetchOutcome.returned "" (some FetchErr.build) ∨
        (fetchLoop cfg oracle endNow i rem s e).outcome = FetchOutcome.panicked := by
  intro rem
  induction rem with
  | zero => intro i s e h; simp [fetchLoop] at h
  | succ n ih =>
      intro i s e h
      by_cases hu : cfg.urlOk = true
      · cases ho : oracle i with
        | transportError =>
            right; right
            simp [fetchLoop, hu, ho]
        | response st body =>
            cases hd : decodeCotacaoMap body with
            | none =>
                simp only [fetchLoop, hu, if_true, ho, hd] at h ⊢
                have h2 : (fetchLoop cfg oracle endNow (i + 1) n
                    (incrementFailureCount cfg s) (some FetchErr.decode)).attempts < n := by
                  simpa using h
                simpa using ih (i + 1) (incrementFailureCount cfg s)
                  (some FetchErr.decode) h2
            | some m =>
                left
                exact ⟨(mapGet m "USDBRL").Bid, by simp [fetchLoop, hu, ho, hd]⟩
      · right; left
        simp [fetchLoop, hu]

lemma fetchLoop_err_value (cfg : FetcherConfig) (oracle : Nat → AttemptOutcome)
    (endNow : Int) :
    ∀ (rem i : Nat) (s : CircuitState) (e : Option FetchErr) (v : String) (fe : FetchErr),
      (fetchLoop cfg oracle endNow i rem s e).outcome =
          FetchOutcome.returned v (some fe) →
        v = cfg.fallbackValue ∨ (fe = FetchErr.build ∧ v = "") := by
  intro rem
  induction rem with
  | zero =>
      intro i s e v fe h
      simp only [fetchLoop] at h
      left
      exact (FetchOutcome.returned.injEq _ _ _ _).mp h |>.1.symm
  | succ n ih =>
      intro i s e v fe h
      by_cases hu : cfg.urlOk = true
      · cases ho : oracle i with
        | transportError =>
            simp [fetchLoop, hu, ho] at h
        | response st body =>
            cases hd : decodeCotacaoMap body with
            | none =>
                simp only [fetchLoop, hu, if_true, ho, hd] at h
                exact ih (i + 1) (incrementFailureCount cfg s) (some FetchErr.decode) v fe
                  (by simpa using h)
            | some m =>
                simp [fetchLoop, hu, ho, hd] at h
      · right
        have h' : "" = v ∧ FetchErr.build = fe := by simpa [fetchLoop, hu] using h
        exact ⟨h'.2.symm, h'.1.symm⟩

lemma fetchLoop_status_irrelevant (cfg : FetcherConfig) (o₁ o₂ : Nat → AttemptOutcome)
    (endNow : Int) (hsame : ∀ i, ignoreStatus (o₁ i) = ignoreStatus (o₂ i)) :
    ∀ (rem i : Nat) (s : CircuitState) (e : Option FetchErr),
      fetchLoop cfg o₁ endNow i rem s e = fetchLoop cfg o₂ endNow i rem s e := by
  intro rem
  induction rem with
  | zero => intro i s e; rfl
  | succ n ih =>
      intro i s e
      by_cases hu : cfg.urlOk = true
      · cases ho₁ : o₁ i with
        | transportError =>
            cases ho₂ : o₂ i with
            | transportError => simp [fetchLoop, hu, ho₁, ho₂]
            | response st₂ b₂ =>
                have := hsame i
                rw [ho₁, ho₂] at this
                simp [ignoreStatus] at this
        | response st₁ b₁ =>
            cases ho₂ : o₂ i with
            | transportError =>
                have := hsame i
                rw [ho₁, ho₂] at this
                simp [ignoreStatus] at this
            | response st₂ b₂ =>
                have hb : b₁ = b₂ := by
                  have := hsame i
                  rw [ho₁, ho₂] at this
                  simpa [ignoreStatus] using this
                subst hb
                cases hd : decodeCotacaoMap b₁ with
                | none => simp [fetchLoop, hu, ho₁, ho₂, hd, ih]
                | some m => simp [fetchLoop, hu, ho₁, ho₂, hd]
      · simp [fetchLoop, hu]

lemma fetchLoop_allfail (cfg : FetcherConfig) (oracle : Nat → AttemptOutcome)
    (endNow : Int) (hu : cfg.urlOk = true) (hfail : AllDecodeFail oracle) :
    ∀ (rem i : Nat) (s : CircuitState) (e : Option FetchErr),
      fetchLoop cfg oracle endNow i rem s e =
        { outcome := FetchOutcome.returned cfg.fallbackValue
            (if rem = 0 then e else some FetchErr.decode),
          attempts := rem,
          state := { incIter cfg rem s with lastAttemptTime := endNow } } := by
  intro rem
  induction rem with
  | zero =>
      intro i s e
      simp [fetchLoop, incIter]
  | succ n ih =>
      intro i s e
      obtain ⟨st, body, ho, hd⟩ := hfail i
      have h1 := ih (i + 1) (incrementFailureCount cfg s) (some FetchErr.decode)
      simp only [fetchLoop, hu, if_true, ho, hd, h1]
      simp [incIter]

lemma incrementFailureCount_circuitOpen (cfg : FetcherConfig) (s : CircuitState) :
    (incrementFailureCount cfg s).circuitOpen =
      if cfg.failureThreshold ≤ s.failureCount + 1 then true else s.circuitOpen := rfl

lemma Fetch_not_bypass (cfg : FetcherConfig) (oracle : Nat → AttemptOutcome)
    (now endNow : Int) (s : CircuitState)
    (hnb : ¬(s.circuitOpen = true ∧ now - s.lastAttemptTime < cfg.circuitResetTime)) :
    Fetch cfg oracle now endNow s =
      fetchLoop cfg oracle endNow 0 (cfg.retry + 1).toNat (halfOpenCheck cfg now s) none := by
  unfold Fetch
  rw [if_neg hnb]

lemma Fetch_allfail (cfg : FetcherConfig) (oracle : Nat → AttemptOutcome)
    (now endNow : Int) (s : CircuitState)
    (hu : cfg.urlOk = true) (hfail : AllDecodeFail oracle)
    (hnb : ¬(s.circuitOpen = true ∧ now - s.lastAttemptTime < cfg.circuitResetTime)) :
    Fetch cfg oracle now endNow s =
      { outcome := FetchOutcome.returned cfg.fallbackValue
          (if (cfg.retry + 1).toNat = 0 then none else some FetchErr.decode),
        attempts := (cfg.retry + 1).toNat,
        state := { incIter cfg (cfg.retry + 1).toNat (halfOpenCheck cfg now s) with
                     lastAttemptTime := endNow } } := by
  rw [Fetch_not_bypass cfg oracle now endNow s hnb]
  exact fetchLoop_allfail cfg oracle endNow hu hfail (cfg.retry + 1).toNat 0
    (halfOpenCheck cfg now s) none

/-- The single consistency invariant of the breaker state: whenever
the circuit is open, at least `failureThreshold` failures have been
counted since the last reset. -/
def BreakerInv (cfg : FetcherConfig) (s : CircuitState) : Prop :=
  s.circuitOpen = true → cfg.failureThreshold ≤ s.failureCount

lemma applyOp_BreakerInv (cfg : FetcherConfig) (s : CircuitState) (op : BreakerOp)
    (h : BreakerInv cfg s) : BreakerInv cfg (applyOp cfg s op) := by
  cases op with
  | incFail =>
      intro hopen
      rw [applyOp, incrementFailureCount_circuitOpen] at hopen
      rw [applyOp, incrementFailureCount_failureCount]
      by_cases hth : cfg.failureThreshold ≤ s.failureCount + 1
      · exact hth
      · rw [if_neg hth] at hopen
        have h2 := h hopen
        omega
  | reset => intro hopen; simp [applyOp, resetCircuit] at hopen
  | cooldownReset => intro hopen; simp [applyOp] at hopen
  | stamp t =>
      intro hopen
      exact h hopen

lemma runOps_BreakerInv (cfg : FetcherConfig) (ops : List BreakerOp) :
    ∀ s : CircuitState, BreakerInv cfg s → BreakerInv cfg (runOps cfg s ops) := by
  induction ops with
  | nil => intro s h; exact h
  | cons op rest ih =>
      intro s h
      exact ih (applyOp cfg s op) (applyOp_BreakerInv cfg s op h)

lemma halfOpenCheck_closed (cfg : FetcherConfig) (now : Int) (s : CircuitState)
    (h : s.circuitOpen = false) : halfOpenCheck cfg now s = s := by
  unfold halfOpenCheck
  rw [if_neg]
  simp [h]

lemma halfOpenCheck_open_elapsed (cfg : FetcherConfig) (now : Int) (s : CircuitState)
    (hopen : s.circuitOpen = true) (helap : cfg.circuitResetTime ≤ now - s.lastAttemptTime) :
    halfOpenCheck cfg now s = { s with circuitOpen := false, failureCount := 0 } := by
  unfold halfOpenCheck
  rw [if_pos ⟨hopen, helap⟩]

/-- Claim C1. The claim says a transport error makes Fetch record a
failure on the breaker, remember the error and move to the next
attempt without crashing. In the code, after `client.Do` returns a
non-nil error the response is nil, and the log call on line 69 reads
`resp.StatusCode`, a nil-pointer dereference: the call panics before
`incrementFailureCount` runs, so no failure is recorded, no further
attempt happens, and the breaker state is unchanged. This theorem
evaluates Fetch at such an input: retry 3, threshold 2, a fresh
breaker, and a first attempt that ends in a transport error. -/
theorem c1_transport_error_crashes :
    Fetch ⟨true, 3, 2, 2, "1.00"⟩ (fun _ => AttemptOutcome.transportError) 10 10
        initialState =
      { outcome := FetchOutcome.panicked, attempts := 1, state := initialState } := rfl

/-- Claim C2, counterexample. A 500 response whose body is the JSON
object with no fields decodes successfully into an empty map, so Fetch
treats the attempt as a success: it returns the zero-value bid `""`
with a nil error after a single attempt, records no failure, and does
not retry — contradicting the claim that a non-2xx status, or a body
without the pair key, is treated as a fetch failure. -/
theorem c2_counterexample :
    Fetch ⟨true, 3, 2, 2, "1.00"⟩ (fun _ => AttemptOutcome.response 500 (Json.obj []))
        10 10 initialState =
      { outcome := FetchOutcome.returned "" none, attempts := 1, state := initialState } := rfl

/-- Claim C2 as amended: Fetch never examines the HTTP status code —
two upstream behaviours that differ only in status codes produce
identical results — and an attempt is a recorded fetch failure exactly
when the body fails to decode: when every body fails to decode, every
attempt increments the failure count and the loop runs to exhaustion. -/
theorem c2_amended (cfg : FetcherConfig) (o₁ o₂ : Nat → AttemptOutcome)
    (now endNow : Int) (s : CircuitState)
    (hsame : ∀ i, ignoreStatus (o₁ i) = ignoreStatus (o₂ i)) :
    Fetch cfg o₁ now endNow s = Fetch cfg o₂ now endNow s ∧
    (cfg.urlOk = true → AllDecodeFail o₁ → s.circuitOpen = false →
      (Fetch cfg o₁ now endNow s).outcome =
        FetchOutcome.returned cfg.fallbackValue
          (if (cfg.retry + 1).toNat = 0 then none else some FetchErr.decode) ∧
      (Fetch cfg o₁ now endNow s).state.failureCount =
        s.failureCount + ((cfg.retry + 1).toNat : Int)) := by
  constructor
  · by_cases hb : s.circuitOpen = true ∧ now - s.lastAttemptTime < cfg.circuitResetTime
    · unfold Fetch
      rw [if_pos hb, if_pos hb]
    · rw [Fetch_not_bypass cfg o₁ now endNow s hb, Fetch_not_bypass cfg o₂ now endNow s hb]
      exact fetchLoop_status_irrelevant cfg o₁ o₂ endNow hsame (cfg.retry + 1).toNat 0
        (halfOpenCheck cfg now s) none
  · intro hu hfail hclosed
    have hnb : ¬(s.circuitOpen = true ∧ now - s.lastAttemptTime < cfg.circuitResetTime) := by
      simp [hclosed]
    rw [Fetch_allfail cfg o₁ now endNow s hu hfail hnb]
    refine ⟨rfl, ?_⟩
    show (incIter cfg (cfg.retry + 1).toNat (halfOpenCheck cfg now s)).failureCount = _
    rw [incIter_failureCount, halfOpenCheck_closed cfg now s hclosed]

/-- Claim C2 witness: the amended theorem at retry 1, a 500-status and
a 200-status upstream that both return the undecodable body `"x"`. -/
theorem c2_amended_witness :
    Fetch ⟨true, 1, 2, 2, "1.00"⟩ (fun _ => AttemptOutcome.response 500 (Json.str "x"))
        10 11 initialState =
      Fetch ⟨true, 1, 2, 2, "1.00"⟩ (fun _ => AttemptOutcome.response 200 (Json.str "x"))
        10 11 initialState ∧
    (Fetch ⟨true, 1, 2, 2, "1.00"⟩ (fun _ => AttemptOutcome.response 500 (Json.str "x"))
        10 11 initialState).outcome =
      FetchOutcome.returned "1.00" (some FetchErr.decode) := by
  have h := c2_amended ⟨true, 1, 2, 2, "1.00"⟩
    (fun _ => AttemptOutcome.response 500 (Json.str "x"))
    (fun _ => AttemptOutcome.response 200 (Json.str "x")) 10 11 initialState (fun _ => rfl)
  have h2 := h.2 rfl (fun _ => ⟨500, Json.str "x", rfl, rfl⟩) rfl
  have h3 : (if ((1 : Int) + 1).toNat = 0 then (none : Option FetchErr)
      else some FetchErr.decode) = some FetchErr.decode := rfl
  exact ⟨h.1, by rw [h2.1, h3]⟩

/-- Claim C3, counterexample. When `http.NewRequestWithContext` fails
for the configured URL, Fetch returns `("", err)` from inside the loop
body before any `client.Do` call: with retry 2 it makes 0 upstream
attempts, fewer than 3, although no attempt succeeded — contradicting
the claim that fewer than N+1 attempts happen only on an early
success. -/
theorem c3_counterexample :
    Fetch ⟨false, 2, 2, 2, "1.00"⟩ (fun _ => AttemptOutcome.transportError) 10 10
        initialState =
      { outcome := FetchOutcome.returned "" (some FetchErr.build), attempts := 0,
        state := initialState } := rfl

/-- Claim C3 as amended: a Fetch call that is not bypassed makes at
most retry+1 upstream attempts, and makes fewer only when an attempt
succeeds early, when request construction fails (the call returns the
construction error at once), or when a transport-error attempt crashes
the call. -/
theorem c3_amended (cfg : FetcherConfig) (oracle : Nat → AttemptOutcome)
    (now endNow : Int) (s : CircuitState)
    (hnb : ¬(s.circuitOpen = true ∧ now - s.lastAttemptTime < cfg.circuitResetTime)) :
    (Fetch cfg oracle now endNow s).attempts ≤ (cfg.retry + 1).toNat ∧
    ((Fetch cfg oracle now endNow s).attempts < (cfg.retry + 1).toNat →
      (∃ v, (Fetch cfg oracle now endNow s).outcome = FetchOutcome.returned v none) ∨
      (Fetch cfg oracle now endNow s).outcome =
        FetchOutcome.returned "" (some FetchErr.build) ∨
      (Fetch cfg oracle now endNow s).outcome = FetchOutcome.panicked) := by
  rw [Fetch_not_bypass cfg oracle now endNow s hnb]
  exact ⟨fetchLoop_attempts_le cfg oracle endNow (cfg.retry + 1).toNat 0
      (halfOpenCheck cfg now s) none,
    fetchLoop_early_exit cfg oracle endNow (cfg.retry + 1).toNat 0
      (halfOpenCheck cfg now s) none⟩

/-- Claim C3 witness: the amended theorem at retry 3 with a fresh
closed breaker and an upstream that succeeds on the first attempt. -/
theorem c3_amended_witness :
    (Fetch ⟨true, 3, 2, 2, "1.00"⟩
        (fun _ => AttemptOutcome.response 200
          (Json.obj [("USDBRL", Json.obj [("bid", Json.str "5.43")])]))
        10 10 initialState).attempts ≤ ((3 : Int) + 1).toNat ∧
    ((Fetch ⟨true, 3, 2, 2, "1.00"⟩
        (fun _ => AttemptOutcome.response 200
          (Json.obj [("USDBRL", Json.obj [("bid", Json.str "5.43")])]))
        10 10 initialState).attempts < ((3 : Int) + 1).toNat →
      (∃ v, (Fetch ⟨true, 3, 2, 2, "1.00"⟩
        (fun _ => AttemptOutcome.response 200
          (Json.obj [("USDBRL", Json.obj [("bid", Json.str "5.43")])]))
        10 10 initialState).outcome = FetchOutcome.returned v none) ∨
      (Fetch ⟨true, 3, 2, 2, "1.00"⟩
        (fun _ => AttemptOutcome.response 200
          (Json.obj [("USDBRL", Json.obj [("bid", Json.str "5.43")])]))
        10 10 initialState).outcome = FetchOutcome.returned "" (some FetchErr.build) ∨
      (Fetch ⟨true, 3, 2, 2, "1.00"⟩
        (fun _ => AttemptOutcome.response 200
          (Json.obj [("USDBRL", Json.obj [("bid", Json.str "5.43")])]))
        10 10 initialState).outcome = FetchOutcome.panicked) :=
  c3_amended ⟨true, 3, 2, 2, "1.00"⟩
    (fun _ => AttemptOutcome.response 200
      (Json.obj [("USDBRL", Json.obj [("bid", Json.str "5.43")])]))
    10 10 initialState (by decide)

/-- Claim C4: when the breaker is open and the cooldown has not
elapsed at the start of a Fetch call, the call returns the configured
fallback with a nil error at once, makes no upstream attempt, and
leaves the breaker state untouched. -/
theorem c4_breaker_bypass (cfg : FetcherConfig) (oracle : Nat → AttemptOutcome)
    (now endNow : Int) (s : CircuitState)
    (hopen : s.circuitOpen = true)
    (hcool : now - s.lastAttemptTime < cfg.circuitResetTime) :
    Fetch cfg oracle now endNow s =
      { outcome := FetchOutcome.returned cfg.fallbackValue none, attempts := 0,
        state := s } := by
  unfold Fetch
  rw [if_pos ⟨hopen, hcool⟩]

/-- Claim C4 witness: an open breaker 1 time unit into a 2-unit
cooldown bypasses the network and returns the fallback "1.00". -/
theorem c4_breaker_bypass_witness :
    Fetch ⟨true, 3, 2, 2, "1.00"⟩ (fun _ => AttemptOutcome.transportError) 101 101
        ⟨2, true, 100⟩ =
      { outcome := FetchOutcome.returned "1.00" none, attempts := 0,
        state := ⟨2, true, 100⟩ } :=
  c4_breaker_bypass ⟨true, 3, 2, 2, "1.00"⟩ (fun _ => AttemptOutcome.transportError)
    101 101 ⟨2, true, 100⟩ rfl (by decide)

/-- Claim C5, counterexample. A call that starts with the breaker open
and the cooldown elapsed (retry 1, threshold 5, cooldown 2, opened at
time 0, called at time 5) whose two attempts both fail to decode makes
2 upstream attempts, not exactly one: the trial goes through the full
retry loop. -/
theorem c5_counterexample :
    Fetch ⟨true, 1, 5, 2, "1.00"⟩ (fun _ => AttemptOutcome.response 200 (Json.str "x"))
        5 6 ⟨3, true, 0⟩ =
      { outcome := FetchOutcome.returned "1.00" (some FetchErr.decode), attempts := 2,
        state := ⟨2, false, 6⟩ } := rfl

/-- Claim C5 as amended: when a Fetch call begins with the breaker
open and the cooldown elapsed (however long past the cooldown), the
bypass check closes the breaker and resets failureCount to 0, and the
call then proceeds exactly as a call from that closed reset state
through the normal retry path, making at least one upstream attempt
(given a constructible request and retry ≥ 0) and up to retry+1. -/
theorem c5_amended (cfg : FetcherConfig) (oracle : Nat → AttemptOutcome)
    (now endNow : Int) (s : CircuitState)
    (hopen : s.circuitOpen = true)
    (helap : cfg.circuitResetTime ≤ now - s.lastAttemptTime)
    (hu : cfg.urlOk = true) (hretry : 0 ≤ cfg.retry) :
    Fetch cfg oracle now endNow s =
      Fetch cfg oracle now endNow { s with circuitOpen := false, failureCount := 0 } ∧
    1 ≤ (Fetch cfg oracle now endNow s).attempts := by
  have hnb : ¬(s.circuitOpen = true ∧ now - s.lastAttemptTime < cfg.circuitResetTime) := by
    intro hb
    omega
  have hnb' : ¬(({ s with circuitOpen := false, failureCount := 0 } :
      CircuitState).circuitOpen = true ∧
      now - ({ s with circuitOpen := false, failureCount := 0 } :
        CircuitState).lastAttemptTime < cfg.circuitResetTime) := by
    simp
  have hfu : 1 ≤ (cfg.retry + 1).toNat := by omega
  constructor
  · rw [Fetch_not_bypass cfg oracle now endNow s hnb,
      Fetch_not_bypass cfg oracle now endNow _ hnb',
      halfOpenCheck_open_elapsed cfg now s hopen helap,
      halfOpenCheck_closed cfg now _ rfl]
  · rw [Fetch_not_bypass cfg oracle now endNow s hnb]
    exact fetchLoop_attempts_pos cfg oracle endNow 0 (cfg.retry + 1).toNat
      (halfOpenCheck cfg now s) none hu hfu

/-- Claim C5 witness: the amended theorem at retry 0, threshold 5,
cooldown 2, breaker opened at time 0 and called at time 5. -/
theorem c5_amended_witness :
    Fetch ⟨true, 0, 5, 2, "1.00"⟩ (fun _ => AttemptOutcome.response 200 (Json.str "x"))
        5 6 ⟨3, true, 0⟩ =
      Fetch ⟨true, 0, 5, 2, "1.00"⟩ (fun _ => AttemptOutcome.response 200 (Json.str "x"))
        5 6 { failureCount := 0, circuitOpen := false, lastAttemptTime := 0 } ∧
    1 ≤ (Fetch ⟨true, 0, 5, 2, "1.00"⟩
        (fun _ => AttemptOutcome.response 200 (Json.str "x")) 5 6 ⟨3, true, 0⟩).attempts := by
  have h := c5_amended ⟨true, 0, 5, 2, "1.00"⟩
    (fun _ => AttemptOutcome.response 200 (Json.str "x")) 5 6 ⟨3, true, 0⟩
    rfl (by decide) rfl (by decide)
  exact h

/-- Claim C6, counterexample. `incrementFailureCount` takes no
timestamp and leaves `lastAttemptTime` untouched even on the call that
opens the breaker: with threshold 1 and a state last stamped at time
42, one recorded failure opens the breaker while the timestamp stays
42 — the code never records the opening instant, contradicting the
claim that the opening transition stores `lastOpenedAt = now` at that
same moment. -/
theorem c6_counterexample :
    incrementFailureCount ⟨true, 3, 1, 2, "1.00"⟩ ⟨0, false, 42⟩ =
      { failureCount := 1, circuitOpen := true, lastAttemptTime := 42 } := rfl

/-- Claim C6 as amended: every call to `incrementFailureCount`
increments failureCount and the breaker ends open exactly when it was
already open or the new count reaches the threshold; no timestamp is
recorded there — `lastAttemptTime` is unchanged, and is set (to the
time the loop ends) only by a Fetch call whose attempts are all
exhausted. -/
theorem c6_amended (cfg : FetcherConfig) (s : CircuitState)
    (oracle : Nat → AttemptOutcome) (now endNow : Int) :
    (incrementFailureCount cfg s).failureCount = s.failureCount + 1 ∧
    ((incrementFailureCount cfg s).circuitOpen = true ↔
      (s.circuitOpen = true ∨ cfg.failureThreshold ≤ s.failureCount + 1)) ∧
    (incrementFailureCount cfg s).lastAttemptTime = s.lastAttemptTime ∧
    (s.circuitOpen = false → cfg.urlOk = true → AllDecodeFail oracle →
      (Fetch cfg oracle now endNow s).state.lastAttemptTime = endNow) := by
  refine ⟨rfl, ?_, rfl, ?_⟩
  · rw [incrementFailureCount_circuitOpen]
    by_cases hth : cfg.failureThreshold ≤ s.failureCount + 1
    · simp [hth]
    · simp [hth]
  · intro hclosed hu hfail
    have hnb : ¬(s.circuitOpen = true ∧ now - s.lastAttemptTime < cfg.circuitResetTime) := by
      simp [hclosed]
    rw [Fetch_allfail cfg oracle now endNow s hu hfail hnb]

/-- Claim C6 witness: the amended theorem at threshold 1, a closed
state stamped at 42, and an exhausting upstream; the breaker opens on
the first failure with the timestamp unmoved, and the exhausted Fetch
call stamps time 99. -/
theorem c6_amended_witness :
    (incrementFailureCount ⟨true, 1, 1, 2, "1.00"⟩ ⟨0, false, 42⟩).failureCount = 0 + 1 ∧
    ((incrementFailureCount ⟨true, 1, 1, 2, "1.00"⟩ ⟨0, false, 42⟩).circuitOpen = true ↔
      (false = true ∨ (1 : Int) ≤ 0 + 1)) ∧
    (incrementFailureCount ⟨true, 1, 1, 2, "1.00"⟩ ⟨0, false, 42⟩).lastAttemptTime = 42 ∧
    (Fetch ⟨true, 1, 1, 2, "1.00"⟩ (fun _ => AttemptOutcome.response 200 (Json.str "x"))
        50 99 ⟨0, false, 42⟩).state.lastAttemptTime = 99 := by
  have h := c6_amended ⟨true, 1, 1, 2, "1.00"⟩ ⟨0, false, 42⟩
    (fun _ => AttemptOutcome.response 200 (Json.str "x")) 50 99
  exact ⟨h.1, h.2.1, h.2.2.1, h.2.2.2 rfl rfl (fun _ => ⟨200, Json.str "x", rfl, rfl⟩)⟩

/-- Claim C7: (a) in every breaker state reachable from the fresh
state through the code's mutations, an open circuit implies at least
failureThreshold counted failures (so the condition held at the moment
the breaker was set open, since the count never decreases while it
stays open); (b) every mutation that lowers the failure count zeroes
it and leaves the breaker closed, and every mutation that closes an
open breaker zeroes the count — the count is reset exactly when the
breaker closes; (c) `resetCircuit`, the single-success path, zeroes
failureCount and leaves the breaker closed. -/
theorem c7_breaker_invariant (cfg : FetcherConfig) (ops : List BreakerOp) :
    ((runOps cfg initialState ops).circuitOpen = true →
      cfg.failureThreshold ≤ (runOps cfg initialState ops).failureCount) ∧
    (∀ (s : CircuitState) (op : BreakerOp),
      ((applyOp cfg s op).failureCount < s.failureCount →
        (applyOp cfg s op).circuitOpen = false ∧ (applyOp cfg s op).failureCount = 0) ∧
      (s.circuitOpen = true → (applyOp cfg s op).circuitOpen = false →
        (applyOp cfg s op).failureCount = 0)) ∧
    (∀ s : CircuitState,
      (resetCircuit s).failureCount = 0 ∧ (resetCircuit s).circuitOpen = false) := by
  refine ⟨?_, ?_, ?_⟩
  · have h0 : BreakerInv cfg initialState := by
      intro h
      simp [initialState] at h
    exact runOps_BreakerInv cfg ops initialState h0
  · intro s op
    cases op with
    | incFail =>
        constructor
        · intro h
          rw [applyOp, incrementFailureCount_failureCount] at h
          omega
        · intro hopen hclosed
          rw [applyOp, incrementFailureCount_circuitOpen] at hclosed
          by_cases hth : cfg.failureThreshold ≤ s.failureCount + 1
          · rw [if_pos hth] at hclosed
            exact absurd hclosed (by simp)
          · rw [if_neg hth] at hclosed
            rw [hopen] at hclosed
            exact absurd hclosed (by simp)
    | reset =>
        exact ⟨fun _ => ⟨rfl, rfl⟩, fun _ _ => rfl⟩
    | cooldownReset =>
        exact ⟨fun _ => ⟨rfl, rfl⟩, fun _ _ => rfl⟩
    | stamp t =>
        constructor
        · intro h
          simp only [applyOp] at h
          omega
        · intro hopen hclosed
          simp only [applyOp] at hclosed
          rw [hopen] at hclosed
          exact absurd hclosed (by simp)
  · intro s
    exact ⟨rfl, rfl⟩

/-- Claim C7 witness: with threshold 2, two recorded failures from the
fresh state open the breaker, and the invariant yields that at least 2
failures were counted. -/
theorem c7_breaker_invariant_witness :
    (2 : Int) ≤ (runOps ⟨true, 3, 2, 2, "1.00"⟩ initialState
      [BreakerOp.incFail, BreakerOp.incFail]).failureCount :=
  (c7_breaker_invariant ⟨true, 3, 2, 2, "1.00"⟩
    [BreakerOp.incFail, BreakerOp.incFail]).1 rfl

/-- Claim C8, counterexample. When `http.NewRequestWithContext` fails
for the configured URL, Fetch returns the non-nil construction error
paired with the empty string, not with the configured fallback
"1.00" — contradicting the claim that no path yields an error paired
with anything other than the fallback value. -/
theorem c8_counterexample :
    Fetch ⟨false, 3, 2, 2, "1.00"⟩ (fun _ => AttemptOutcome.transportError) 10 10
        initialState =
      { outcome := FetchOutcome.returned "" (some FetchErr.build), attempts := 0,
        state := initialState } := rfl

/-- Claim C8 as amended: every non-nil error Fetch returns is paired
with the configured fallback value, with the single exception of the
request-construction failure, which is paired with the empty string;
and in every execution where all attempts in the retry loop fail, the
call stamps `lastAttemptTime` with the time of the exhausted loop and
returns the fallback with the last observed error. -/
theorem c8_amended (cfg : FetcherConfig) (oracle : Nat → AttemptOutcome)
    (now endNow : Int) (s : CircuitState) :
    (∀ (v : String) (fe : FetchErr),
      (Fetch cfg oracle now endNow s).outcome = FetchOutcome.returned v (some fe) →
        v = cfg.fallbackValue ∨ (fe = FetchErr.build ∧ v = "")) ∧
    (cfg.urlOk = true → AllDecodeFail oracle → 0 ≤ cfg.retry →
      ¬(s.circuitOpen = true ∧ now - s.lastAttemptTime < cfg.circuitResetTime) →
      (Fetch cfg oracle now endNow s).outcome =
        FetchOutcome.returned cfg.fallbackValue (some FetchErr.decode) ∧
      (Fetch cfg oracle now endNow s).state.lastAttemptTime = endNow) := by
  constructor
  · intro v fe h
    by_cases hb : s.circuitOpen = true ∧ now - s.lastAttemptTime < cfg.circuitResetTime
    · unfold Fetch at h
      rw [if_pos hb] at h
      simp at h
    · rw [Fetch_not_bypass cfg oracle now endNow s hb] at h
      exact fetchLoop_err_value cfg oracle endNow (cfg.retry + 1).toNat 0
        (halfOpenCheck cfg now s) none v fe h
  · intro hu hfail hretry hnb
    rw [Fetch_allfail cfg oracle now endNow s hu hfail hnb]
    have hfu : ¬((cfg.retry + 1).toNat = 0) := by omega
    exact ⟨by simp [hfu], rfl⟩

/-- Claim C8 witness: the amended theorem at retry 1, fallback "1.00",
fresh breaker, every attempt an undecodable body: the call returns the
fallback with the decode error and stamps time 11. -/
theorem c8_amended_witness :
    (Fetch ⟨true, 1, 2, 2, "1.00"⟩ (fun _ => AttemptOutcome.response 200 (Json.str "x"))
        10 11 initialState).outcome =
      FetchOutcome.returned "1.00" (some FetchErr.decode) ∧
    (Fetch ⟨true, 1, 2, 2, "1.00"⟩ (fun _ => AttemptOutcome.response 200 (Json.str "x"))
        10 11 initialState).state.lastAttemptTime = 11 := by
  have h := (c8_amended ⟨true, 1, 2, 2, "1.00"⟩
    (fun _ => AttemptOutcome.response 200 (Json.str "x")) 10 11 initialState).2
    rfl (fun _ => ⟨200, Json.str "x", rfl, rfl⟩) (by decide) (by decide)
  exact h

/-- Claim C9: for any upstream payload that decodes into a map binding
the pair key "USDBRL" to a Cotacao with bid string b, a Fetch call
whose first attempt yields that payload (any status) returns exactly b
with a nil error, and the handler re-encodes exactly b into the
response body — the bid string round-trips untouched, with no numeric
re-parsing anywhere. -/
theorem c9_roundtrip (cfg : FetcherConfig) (oracle : Nat → AttemptOutcome)
    (now endNow st : Int) (s : CircuitState) (payload : Json)
    (m : List (String × Cotacao)) (b : String)
    (hu : cfg.urlOk = true) (hclosed : s.circuitOpen = false) (hretry : 0 ≤ cfg.retry)
    (ho : oracle 0 = AttemptOutcome.response st payload)
    (hdec : decodeCotacaoMap payload = some m)
    (hbid : lookupC m "USDBRL" = some ⟨b⟩) :
    Fetch cfg oracle now endNow s =
      { outcome := FetchOutcome.returned b none, attempts := 1, state := resetCircuit s } ∧
    cotacaoHandler (b, none) none =
      HandlerResponse.ok (Json.obj [("Cotacao", Json.str b)]) := by
  constructor
  · have hnb : ¬(s.circuitOpen = true ∧ now - s.lastAttemptTime < cfg.circuitResetTime) := by
      simp [hclosed]
    rw [Fetch_not_bypass cfg oracle now endNow s hnb,
      halfOpenCheck_closed cfg now s hclosed]
    have hfu : (cfg.retry + 1).toNat = cfg.retry.toNat + 1 := by omega
    rw [hfu]
    have hb : mapGet m "USDBRL" = ⟨b⟩ := by
      rw [mapGet, hbid]
      rfl
    simp [fetchLoop, hu, ho, hdec, hb]
  · rfl

/-- Claim C9 witness: the payload with body
`\x7b"USDBRL": \x7b"bid": "5.43"\x7d\x7d` round-trips the exact string
"5.43" through Fetch and the handler. -/
theorem c9_roundtrip_witness :
    Fetch ⟨true, 3, 2, 2, "1.00"⟩
        (fun _ => AttemptOutcome.response 200
          (Json.obj [("USDBRL", Json.obj [("bid", Json.str "5.43")])]))
        10 10 initialState =
      { outcome := FetchOutcome.returned "5.43" none, attempts := 1,
        state := resetCircuit initialState } ∧
    cotacaoHandler ("5.43", none) none =
      HandlerResponse.ok (Json.obj [("Cotacao", Json.str "5.43")]) :=
  c9_roundtrip ⟨true, 3, 2, 2, "1.00"⟩
    (fun _ => AttemptOutcome.response 200
      (Json.obj [("USDBRL", Json.obj [("bid", Json.str "5.43")])]))
    10 10 200 initialState (Json.obj [("USDBRL", Json.obj [("bid", Json.str "5.43")])])
    [("USDBRL", ⟨"5.43"⟩)] "5.43" rfl rfl (by decide) rfl rfl rfl

/-- Claim C10: the breaker bypass decision is taken once, before the
first attempt; if the breaker opens part-way through the loop because
this call's own failures reach the threshold, the remaining attempts
are still issued. Concretely: from a non-bypassed start with
threshold ≤ retry and every body undecodable, all retry+1 attempts
are made even though the breaker ends (and so became) open during the
loop. -/
theorem c10_bypass_checked_once (cfg : FetcherConfig) (oracle : Nat → AttemptOutcome)
    (now endNow : Int) (s : CircuitState)
    (hnb : ¬(s.circuitOpen = true ∧ now - s.lastAttemptTime < cfg.circuitResetTime))
    (hu : cfg.urlOk = true) (hfail : AllDecodeFail oracle)
    (hcount : 0 ≤ s.failureCount)
    (hth1 : 1 ≤ cfg.failureThreshold) (hth : cfg.failureThreshold ≤ cfg.retry) :
    (Fetch cfg oracle now endNow s).attempts = (cfg.retry + 1).toNat ∧
    (Fetch cfg oracle now endNow s).state.circuitOpen = true := by
  rw [Fetch_allfail cfg oracle now endNow s hu hfail hnb]
  refine ⟨rfl, ?_⟩
  show (incIter cfg (cfg.retry + 1).toNat (halfOpenCheck cfg now s)).circuitOpen = true
  apply incIter_circuitOpen_of_threshold
  · omega
  · have hc : 0 ≤ (halfOpenCheck cfg now s).failureCount := by
      unfold halfOpenCheck
      split_ifs
      · simp
      · exact hcount
    omega

/-- Claim C10 witness: retry 2, threshold 1, fresh breaker, every body
undecodable: the breaker opens at the first failure of the call, yet
all 3 attempts are made and the breaker ends open. -/
theorem c10_bypass_checked_once_witness :
    (Fetch ⟨true, 2, 1, 2, "1.00"⟩ (fun _ => AttemptOutcome.response 200 (Json.str "x"))
        10 11 initialState).attempts = ((2 : Int) + 1).toNat ∧
    (Fetch ⟨true, 2, 1, 2, "1.00"⟩ (fun _ => AttemptOutcome.response 200 (Json.str "x"))
        10 11 initialState).state.circuitOpen = true :=
  c10_bypass_checked_once ⟨true, 2, 1, 2, "1.00"⟩
    (fun _ => AttemptOutcome.response 200 (Json.str "x")) 10 11 initialState
    (by decide) rfl (fun _ => ⟨200, Json.str "x", rfl, rfl⟩) (by decide) (by decide)
    (by decide)

end PgCotacao
